import Mathlib

/-!
Shallow embedding of the smbanx money-movement core:
`server/src/services/transferService.ts` (transfer orchestrator and
provider-webhook handlers) and the card-transaction simulator service
(`createCardTransaction` / `postCardTransaction` / `cancelCardTransaction`).

The relational store (Prisma) is modelled as an explicit `DB` value holding
the account, user, card and transaction rows; every service function is a
pure function from a `DB` (plus the responses of the external provider
adapters, passed in as an environment record) to the final `DB` together
with the returned value or thrown error.  Integer minor-unit amounts are
`Int` (JavaScript numbers on these code paths are integers; balances may go
negative since the store does not enforce a lower bound).
-/

namespace Smbanx

/-- Transaction status enum (Prisma `TxStatus`): `PENDING`, `COMPLETED`,
`FAILED`, `CANCELLED`. -/
inductive TxStatus where
  | PENDING
  | COMPLETED
  | FAILED
  | CANCELLED
deriving DecidableEq, Repr

/-- Lowercase rendering used in error messages (`status.toLowerCase()`). -/
def TxStatus.lower : TxStatus → String
  | .PENDING => "pending"
  | .COMPLETED => "completed"
  | .FAILED => "failed"
  | .CANCELLED => "cancelled"

/-- Transaction direction enum (Prisma `TxType`): `DEBIT` or `CREDIT`. -/
inductive TxType where
  | DEBIT
  | CREDIT
deriving DecidableEq, Repr

/-- Card status enum (Prisma `CardStatus`): `ACTIVE` or `FROZEN`. -/
inductive CardStatus where
  | ACTIVE
  | FROZEN
deriving DecidableEq, Repr

/-- An account row: owner, balance in minor units, currency, and the
optional per-provider bindings used by the transfer orchestrator. -/
structure Account where
  id : String
  userId : String
  balanceCents : Int
  currency : String
  moovPaymentMethodId : Option String
  nymbusAccountId : Option String
deriving DecidableEq, Repr

/-- A user row, restricted to the fields the orchestrator reads. -/
structure User where
  id : String
  nymbusCustomerId : Option String
  marqetaUserToken : Option String
deriving DecidableEq, Repr

/-- A card row: owning account, status, and optional card-network token. -/
structure Card where
  id : String
  accountId : String
  status : CardStatus
  marqetaCardToken : Option String
deriving DecidableEq, Repr

/-- A transaction row.  At most one provider correlation field is set in
practice (`stripePaymentIntentId` / `moovTransferId` / `nymbusTransferId` /
`marqetaTransactionToken`), matching the `provider` tag. -/
structure Transaction where
  id : String
  fromAccountId : Option String
  toAccountId : Option String
  amountCents : Int
  type : TxType
  status : TxStatus
  memo : Option String
  provider : String
  stripePaymentIntentId : Option String
  moovTransferId : Option String
  nymbusTransferId : Option String
  cardId : Option String
  merchantName : Option String
  marqetaTransactionToken : Option String
deriving DecidableEq, Repr

/-- The relational store: one list of rows per table. -/
structure DB where
  accounts : List Account
  users : List User
  cards : List Card
  transactions : List Transaction
deriving DecidableEq, Repr

/-- Models `AppError(message, statusCode, code?)` from `utils/errors.ts`;
the subclasses fix particular status/code pairs. -/
structure AppErr where
  message : String
  statusCode : Nat
  code : Option String
deriving DecidableEq, Repr

/-- Models `new NotFoundError(resource)`. -/
def notFoundError (resource : String) : AppErr :=
  ⟨resource ++ " not found", 404, some "NOT_FOUND"⟩

/-- Models `new ForbiddenError(message)`. -/
def forbiddenError (message : String) : AppErr :=
  ⟨message, 403, some "FORBIDDEN"⟩

/-- Models `new ValidationError(message)`. -/
def validationError (message : String) : AppErr :=
  ⟨message, 422, some "VALIDATION_ERROR"⟩

/-- Models `prisma.account.findUnique({ where: { id } })`. -/
def findAccount (db : DB) (accId : String) : Option Account :=
  db.accounts.find? (fun a => a.id == accId)

/-- Models `prisma.user.findUnique({ where: { id } })`. -/
def findUser (db : DB) (uId : String) : Option User :=
  db.users.find? (fun u => u.id == uId)

/-- Models `prisma.card.findUnique({ where: { id } })`. -/
def findCard (db : DB) (cId : String) : Option Card :=
  db.cards.find? (fun c => c.id == cId)

/-- Models `prisma.transaction.findUnique({ where: { id } })`. -/
def findTx (db : DB) (txId : String) : Option Transaction :=
  db.transactions.find? (fun t => t.id == txId)

/-- Models `prisma.transaction.update({ where: { id: txId }, data: { status } })`. -/
def setTxStatus (db : DB) (txId : String) (s : TxStatus) : DB :=
  { db with
    transactions := db.transactions.map
      (fun t => if t.id == txId then { t with status := s } else t) }

/-- Models `prisma.account.update({ where: { id: accId }, data: { balanceCents:
{ increment: delta } } })`; a Prisma `decrement` is `adjustBalance` with a
negative `delta`. -/
def adjustBalance (db : DB) (accId : String) (delta : Int) : DB :=
  { db with
    accounts := db.accounts.map
      (fun a => if a.id == accId then { a with balanceCents := a.balanceCents + delta } else a) }

/-- Models `prisma.transaction.create({ data: t })`: the new row is appended. -/
def addTx (db : DB) (t : Transaction) : DB :=
  { db with transactions := db.transactions ++ [t] }

/-- The atomic `prisma.$transaction([...])` block repeated at every
settlement site: mark the transaction `COMPLETED`, decrement the source
balance, increment the destination balance. -/
def applyCompleted (db : DB) (txId fromId toId : String) (amountCents : Int) : DB :=
  adjustBalance (adjustBalance (setTxStatus db txId .COMPLETED) fromId (-amountCents)) toId amountCents

/-- A lowercase-ASCII-letter-or-digit test, the character class `[a-z0-9]`
of the `toMid` regular expression. -/
def isLowerAlnum (c : Char) : Bool :=
  (decide (Char.ofNat 97 ≤ c) && decide (c ≤ Char.ofNat 122)) ||
  (decide (Char.ofNat 48 ≤ c) && decide (c ≤ Char.ofNat 57))

/-- Ownership rule shared by `confirmTransfer` and `cancelTransfer`:
`tx.fromAccount ? tx.fromAccount.userId : tx.toAccount?.userId`. -/
def ownerUserId (db : DB) (tx : Transaction) : Option String :=
  match tx.fromAccountId.bind (findAccount db) with
  | some a => some a.userId
  | none => (tx.toAccountId.bind (findAccount db)).map (fun a => a.userId)

/-- Responses of the external adapter calls that `confirmTransfer` can make:
the normalized status answered by `moovGetTransfer` and the PaymentIntent
status answered by `confirmPaymentIntent`. -/
structure ConfirmEnv where
  moovStatus : String
  stripeStatus : String
deriving DecidableEq, Repr

/-- Models `confirmTransfer(transactionId, userId)` from
`transferService.ts`.  Returns the final store together with the returned
transaction or the thrown error; mutations already persisted before a
throw (the `FAILED` mark on a declined payment) stay in the returned
store, exactly as with the awaited Prisma calls in the source. -/
def confirmTransfer (env : ConfirmEnv) (db : DB) (transactionId userId : String) :
    DB × Except AppErr Transaction :=
  match findTx db transactionId with
  | none => (db, .error (notFoundError "Transaction"))
  | some tx =>
    if ownerUserId db tx ≠ some userId then
      (db, .error (forbiddenError "Access denied"))
    else if tx.status ≠ .PENDING then
      (db, .error ⟨"Transaction is already " ++ tx.status.lower, 400, some "INVALID_STATE"⟩)
    else
      match tx.toAccountId with
      | none => (db, .error ⟨"Invalid transaction accounts", 500, none⟩)
      | some toId =>
        if tx.provider == "internal" then
          match tx.fromAccountId with
          | none => (db, .error ⟨"Invalid transaction accounts", 500, none⟩)
          | some fromId =>
            (applyCompleted db transactionId fromId toId tx.amountCents,
             .ok { tx with status := .COMPLETED })
        else if tx.provider == "nymbus" then
          match tx.fromAccountId with
          | none => (db, .error ⟨"Invalid transaction accounts", 500, none⟩)
          | some fromId =>
            (applyCompleted db transactionId fromId toId tx.amountCents,
             .ok { tx with status := .COMPLETED })
        else if tx.moovTransferId.isSome then
          match tx.fromAccountId with
          | none => (db, .error ⟨"Invalid transaction accounts", 500, none⟩)
          | some fromId =>
            -- `if (status !== 'completed') { if (status === 'failed') … throw }`:
            -- only the `failed` answer diverts; every other answer falls
            -- through to the optimistic completion below
            if env.moovStatus == "failed" then
              (setTxStatus db transactionId .FAILED,
               .error ⟨"Moov transfer failed with status: " ++ env.moovStatus, 400,
                       some "PAYMENT_FAILED"⟩)
            else
              (applyCompleted db transactionId fromId toId tx.amountCents,
               .ok { tx with status := .COMPLETED })
        else
          match tx.stripePaymentIntentId with
          | none => (db, .error ⟨"No payment intent associated", 500, none⟩)
          | some _ =>
            if env.stripeStatus ≠ "succeeded" then
              (setTxStatus db transactionId .FAILED,
               .error ⟨"Payment failed with status: " ++ env.stripeStatus, 400,
                       some "PAYMENT_FAILED"⟩)
            else
              match tx.fromAccountId with
              | none =>
                (adjustBalance (setTxStatus db transactionId .COMPLETED) toId tx.amountCents,
                 .ok { tx with status := .COMPLETED })
              | some fromId =>
                (applyCompleted db transactionId fromId toId tx.amountCents,
                 .ok { tx with status := .COMPLETED })

/-- Whether the best-effort provider revoke calls made by `cancelTransfer`
(`moovCancelTransfer` / `cancelPaymentIntent`) succeed; the source catches
and discards their errors, so these flags never influence the outcome. -/
structure CancelEnv where
  moovCancelOk : Bool
  stripeCancelOk : Bool
deriving DecidableEq, Repr

/-- Models `cancelTransfer(transactionId, userId)` from `transferService.ts`. -/
def cancelTransfer (env : CancelEnv) (db : DB) (transactionId userId : String) :
    DB × Except AppErr Transaction :=
  match findTx db transactionId with
  | none => (db, .error (notFoundError "Transaction"))
  | some tx =>
    if ownerUserId db tx ≠ some userId then
      (db, .error (forbiddenError "Access denied"))
    else if tx.status ≠ .PENDING then
      (db, .error ⟨"Cannot cancel a " ++ tx.status.lower ++ " transaction", 400,
                   some "INVALID_STATE"⟩)
    else
      -- best-effort revoke: both adapter calls sit inside try/catch blocks
      -- whose handlers drop the error, so the `env` outcome is discarded
      let _revoked : Bool :=
        if tx.moovTransferId.isSome then env.moovCancelOk
        else if tx.provider != "internal" && tx.stripePaymentIntentId.isSome then
          env.stripeCancelOk
        else true
      (setTxStatus db transactionId .CANCELLED, .ok { tx with status := .CANCELLED })

/-- The two Stripe webhook event types the handler accepts. -/
inductive StripeEvent where
  | payment_intent_succeeded
  | payment_intent_payment_failed
deriving DecidableEq, Repr

/-- Models `handleStripeWebhook(piId, eventType)`: find the first `PENDING`
transaction carrying this PaymentIntent id; if none, no-op.  On success the
`if (!tx.fromAccountId || !tx.toAccountId) return` guard precedes every
mutation, so a matched transaction missing either account id is left
untouched. -/
def handleStripeWebhook (db : DB) (piId : String) (eventType : StripeEvent) : DB :=
  match db.transactions.find?
      (fun t => decide (t.stripePaymentIntentId = some piId ∧ t.status = .PENDING)) with
  | none => db
  | some tx =>
    match eventType with
    | .payment_intent_succeeded =>
      match tx.fromAccountId, tx.toAccountId with
      | some fromId, some toId => applyCompleted db tx.id fromId toId tx.amountCents
      | _, _ => db
    | .payment_intent_payment_failed => setTxStatus db tx.id .FAILED

/-- The two Moov webhook event types the handler accepts. -/
inductive MoovEvent where
  | completed
  | failed
deriving DecidableEq, Repr

/-- Models `handleMoovWebhook(moovTransferId, eventType)`, the Moov twin of
`handleStripeWebhook`. -/
def handleMoovWebhook (db : DB) (transferId : String) (eventType : MoovEvent) : DB :=
  match db.transactions.find?
      (fun t => decide (t.moovTransferId = some transferId ∧ t.status = .PENDING)) with
  | none => db
  | some tx =>
    match eventType with
    | .completed =>
      match tx.fromAccountId, tx.toAccountId with
      | some fromId, some toId => applyCompleted db tx.id fromId toId tx.amountCents
      | _, _ => db
    | .failed => setTxStatus db tx.id .FAILED

/-- Identifiers and metadata produced by the external create calls of
`initiateTransfer` (`createPaymentIntent`, `moovCreateTransfer`,
`createNymbusTransfer`) plus the primary key Prisma assigns to the created
transaction row. -/
structure InitiateEnv where
  stripePiId : String
  stripeClientSecret : Option String
  moovTransferId : String
  moovFeeCents : Option Int
  nymbusTransferId : String
  newTxId : String
deriving DecidableEq, Repr

/-- The `{ transaction, paymentIntentId, clientSecret, feeCents? }` value
returned by `initiateTransfer`. -/
structure InitiateResult where
  transaction : Transaction
  paymentIntentId : Option String
  clientSecret : Option String
  feeCents : Option Int
deriving DecidableEq, Repr

/-- Models `initiateTransfer(userId, fromAccountId, toAccountId,
amountCents, memo, provider, moovRailType, paymentMethodId)` from
`transferService.ts`.  `moovRailType` and `paymentMethodId` are forwarded
to the external adapters only, so they have no effect on the store. -/
def initiateTransfer (env : InitiateEnv) (db : DB) (userId : String)
    (fromAccountId : Option String) (toAccountId : String) (amountCents : Int)
    (memo : Option String) (provider : String) (_moovRailType : Option String)
    (_paymentMethodId : Option String) : DB × Except AppErr InitiateResult :=
  match findAccount db toAccountId with
  | none => (db, .error (notFoundError "Destination account"))
  | some toAccount =>
    -- Stripe card-funding: fromAccountId not required
    if provider == "stripe" && fromAccountId.isNone then
      if toAccount.userId ≠ userId then
        (db, .error (forbiddenError "Access denied to destination account"))
      else if amountCents ≤ 0 then
        (db, .error (validationError "Amount must be positive"))
      else
        let creditTx : Transaction :=
          { id := env.newTxId, fromAccountId := none, toAccountId := some toAccountId,
            amountCents, type := .CREDIT, status := .PENDING, memo,
            provider := "stripe", stripePaymentIntentId := some env.stripePiId,
            moovTransferId := none, nymbusTransferId := none, cardId := none,
            merchantName := none, marqetaTransactionToken := none }
        (addTx db creditTx, .ok ⟨creditTx, some env.stripePiId, env.stripeClientSecret, none⟩)
    else
      match fromAccountId with
      | none => (db, .error (validationError "Source account is required"))
      | some fromId =>
        match findAccount db fromId with
        | none => (db, .error (notFoundError "Source account"))
        | some fromAccount =>
          if fromAccount.userId ≠ userId then
            (db, .error (forbiddenError "Access denied to source account"))
          else if fromId == toAccountId then
            (db, .error (validationError "Cannot transfer to same account"))
          else if amountCents ≤ 0 then
            (db, .error (validationError "Amount must be positive"))
          else if fromAccount.balanceCents < amountCents then
            (db, .error ⟨"Insufficient funds", 400, some "INSUFFICIENT_FUNDS"⟩)
          else if provider == "internal" then
            if toAccount.userId ≠ userId then
              (db, .error (validationError "Internal transfers must be between your own accounts"))
            else
              let debitTx : Transaction :=
                { id := env.newTxId, fromAccountId := some fromId,
                  toAccountId := some toAccountId, amountCents, type := .DEBIT,
                  status := .PENDING, memo, provider := "internal",
                  stripePaymentIntentId := none, moovTransferId := none,
                  nymbusTransferId := none, cardId := none, merchantName := none,
                  marqetaTransactionToken := none }
              (addTx db debitTx, .ok ⟨debitTx, none, none, none⟩)
          else if provider == "moov" then
            if fromAccount.moovPaymentMethodId.isNone then
              (db, .error (validationError "Source account has no Moov payment method"))
            else if toAccount.moovPaymentMethodId.isNone then
              (db, .error (validationError "Destination account has no Moov payment method"))
            else
              let debitTx : Transaction :=
                { id := env.newTxId, fromAccountId := some fromId,
                  toAccountId := some toAccountId, amountCents, type := .DEBIT,
                  status := .PENDING, memo, provider := "moov",
                  stripePaymentIntentId := none,
                  moovTransferId := some env.moovTransferId,
                  nymbusTransferId := none, cardId := none, merchantName := none,
                  marqetaTransactionToken := none }
              (addTx db debitTx,
               .ok ⟨debitTx, some env.moovTransferId, none, env.moovFeeCents⟩)
          else if provider == "nymbus" then
            if fromAccount.nymbusAccountId.isNone then
              (db, .error (validationError "Source account has no Nymbus account ID"))
            else if toAccount.nymbusAccountId.isNone then
              (db, .error (validationError "Destination account has no Nymbus account ID"))
            else if ((findUser db fromAccount.userId).bind
                (fun u => u.nymbusCustomerId)).isNone then
              (db, .error (validationError "Source user has no Nymbus customer ID"))
            else
              let debitTx : Transaction :=
                { id := env.newTxId, fromAccountId := some fromId,
                  toAccountId := some toAccountId, amountCents, type := .DEBIT,
                  status := .PENDING, memo, provider := "nymbus",
                  stripePaymentIntentId := none, moovTransferId := none,
                  nymbusTransferId := some env.nymbusTransferId, cardId := none,
                  merchantName := none, marqetaTransactionToken := none }
              (addTx db debitTx, .ok ⟨debitTx, some env.nymbusTransferId, none, none⟩)
          else
            -- Stripe path with a source account (default branch)
            let debitTx : Transaction :=
              { id := env.newTxId, fromAccountId := some fromId,
                toAccountId := some toAccountId, amountCents, type := .DEBIT,
                status := .PENDING, memo, provider := "stripe",
                stripePaymentIntentId := some env.stripePiId, moovTransferId := none,
                nymbusTransferId := none, cardId := none, merchantName := none,
                marqetaTransactionToken := none }
            (addTx db debitTx, .ok ⟨debitTx, some env.stripePiId, env.stripeClientSecret, none⟩)

/-- Models `toMid` from the card service:
`merchantName.toLowerCase().replace(/[^a-z0-9]/g, '_').slice(0, 40)` —
lowercase every character, replace each character outside `[a-z0-9]` with
an underscore, and keep the first 40 characters. -/
def toMid (merchantName : String) : String :=
  String.mk
    (((merchantName.data.map Char.toLower).map
      (fun c => if isLowerAlnum c then c else Char.ofNat 95)).take 40)

/-- The card-simulation kinds accepted by `createCardTransaction`. -/
inductive CardTxType where
  | auth
  | purchase
  | credit
deriving DecidableEq, Repr

/-- Responses of the external Marqeta simulator calls: the token of the
authorization created by `simulateAuthorization`, plus the primary key
Prisma assigns to the created transaction row. -/
structure CardEnv where
  mqAuthToken : String
  newTxId : String
deriving DecidableEq, Repr

/-- Models `createCardTransaction(cardId, userId, type, amountCents,
merchantName, memo)` from the card service.  `simulateAuthorization`,
`simulateClearing` and `fundGPA` touch only the external simulator, so in
the store they surface solely as the recorded `marqetaTransactionToken`. -/
def createCardTransaction (env : CardEnv) (db : DB) (cardId userId : String)
    (type : CardTxType) (amountCents : Int) (merchantName : String)
    (memo : Option String) : DB × Except AppErr Transaction :=
  match findCard db cardId with
  | none => (db, .error (notFoundError "Card"))
  | some card =>
    if (findAccount db card.accountId).map (fun a => a.userId) ≠ some userId then
      (db, .error (forbiddenError "Access denied"))
    else if card.status = .FROZEN then
      (db, .error ⟨"Card is frozen", 400, some "CARD_FROZEN"⟩)
    else
      -- `marqetaTransactionToken` is recorded only when the card carries a
      -- Marqeta card token (otherwise no authorization is simulated)
      let mqToken : Option String :=
        if card.marqetaCardToken.isSome then some env.mqAuthToken else none
      match type with
      | .auth =>
        let t : Transaction :=
          { id := env.newTxId, fromAccountId := none,
            toAccountId := some card.accountId, amountCents, type := .DEBIT,
            status := .PENDING, memo, provider := "card",
            stripePaymentIntentId := none, moovTransferId := none,
            nymbusTransferId := none, cardId := some cardId,
            merchantName := some merchantName, marqetaTransactionToken := mqToken }
        (addTx db t, .ok t)
      | .purchase =>
        let t : Transaction :=
          { id := env.newTxId, fromAccountId := none,
            toAccountId := some card.accountId, amountCents, type := .DEBIT,
            status := .COMPLETED, memo, provider := "card",
            stripePaymentIntentId := none, moovTransferId := none,
            nymbusTransferId := none, cardId := some cardId,
            merchantName := some merchantName, marqetaTransactionToken := mqToken }
        (adjustBalance (addTx db t) card.accountId (-amountCents), .ok t)
      | .credit =>
        let t : Transaction :=
          { id := env.newTxId, fromAccountId := none,
            toAccountId := some card.accountId, amountCents, type := .CREDIT,
            status := .COMPLETED, memo, provider := "card",
            stripePaymentIntentId := none, moovTransferId := none,
            nymbusTransferId := none, cardId := some cardId,
            merchantName := some merchantName, marqetaTransactionToken := none }
        (adjustBalance (addTx db t) card.accountId amountCents, .ok t)

/-- Models `postCardTransaction(transactionId, userId)`: settle a pending
card authorization — mark `COMPLETED` and decrement the account balance. -/
def postCardTransaction (db : DB) (transactionId userId : String) :
    DB × Except AppErr Transaction :=
  match findTx db transactionId with
  | none => (db, .error (notFoundError "Transaction"))
  | some tx =>
    if tx.provider ≠ "card" then
      (db, .error ⟨"Not a card transaction", 400, some "INVALID_PROVIDER"⟩)
    else if tx.status ≠ .PENDING then
      (db, .error ⟨"Transaction is already " ++ tx.status.lower, 400, some "INVALID_STATE"⟩)
    else
      match tx.toAccountId.bind (findAccount db) with
      | none => (db, .error ⟨"Invalid transaction", 500, none⟩)
      | some toAccount =>
        if toAccount.userId ≠ userId then
          (db, .error (forbiddenError "Access denied"))
        else
          (adjustBalance (setTxStatus db transactionId .COMPLETED) toAccount.id
             (-tx.amountCents),
           .ok { tx with status := .COMPLETED })

/-- Models `cancelCardTransaction(transactionId, userId)` (the void
operation): reverse a pending card authorization — mark `CANCELLED`, no
balance change. -/
def cancelCardTransaction (db : DB) (transactionId userId : String) :
    DB × Except AppErr Transaction :=
  match findTx db transactionId with
  | none => (db, .error (notFoundError "Transaction"))
  | some tx =>
    if tx.provider ≠ "card" then
      (db, .error ⟨"Not a card transaction", 400, some "INVALID_PROVIDER"⟩)
    else if tx.status ≠ .PENDING then
      (db, .error ⟨"Cannot void a " ++ tx.status.lower ++ " transaction", 400,
                   some "INVALID_STATE"⟩)
    else
      match tx.toAccountId.bind (findAccount db) with
      | none => (db, .error ⟨"Invalid transaction", 500, none⟩)
      | some toAccount =>
        if toAccount.userId ≠ userId then
          (db, .error (forbiddenError "Access denied"))
        else
          (setTxStatus db transactionId .CANCELLED, .ok { tx with status := .CANCELLED })

/-- The stored ledger balance of an account, when the row exists. -/
def balanceOf (db : DB) (accId : String) : Option Int :=
  (findAccount db accId).map (fun a => a.balanceCents)

section Helpers

variable {α : Type}

/-- `find?` commutes with a map that does not disturb the predicate. -/
theorem find?_map_comm (f : α → α) (p : α → Bool) (l : List α)
    (h : ∀ a, p (f a) = p a) : (l.map f).find? p = (l.find? p).map f := by
  induction l with
  | nil => rfl
  | cons x xs ih =>
    by_cases hx : p x = true
    · simp [List.find?_cons, h, hx]
    · rw [Bool.not_eq_true] at hx
      simp [List.find?_cons, h, hx, ih]

/-- `find?` over a mapped list where no image satisfies the predicate. -/
theorem find?_map_none (f : α → α) (p : α → Bool) (l : List α)
    (h : ∀ a ∈ l, p (f a) = false) : (l.map f).find? p = none := by
  induction l with
  | nil => rfl
  | cons x xs ih =>
    simp only [List.map_cons, List.find?_cons, h x (by simp)]
    exact ih (fun a ha => h a (by simp [ha]))

end Helpers

theorem findAccount_setTxStatus (db : DB) (txId : String) (s : TxStatus) (j : String) :
    findAccount (setTxStatus db txId s) j = findAccount db j := rfl

theorem findAccount_addTx (db : DB) (t : Transaction) (j : String) :
    findAccount (addTx db t) j = findAccount db j := rfl

theorem findTx_adjustBalance (db : DB) (accId : String) (delta : Int) (j : String) :
    findTx (adjustBalance db accId delta) j = findTx db j := rfl

theorem accounts_setTxStatus (db : DB) (txId : String) (s : TxStatus) :
    (setTxStatus db txId s).accounts = db.accounts := rfl

theorem transactions_adjustBalance (db : DB) (accId : String) (delta : Int) :
    (adjustBalance db accId delta).transactions = db.transactions := rfl

theorem findAccount_adjustBalance (db : DB) (i : String) (delta : Int) (j : String) :
    findAccount (adjustBalance db i delta) j =
      (findAccount db j).map
        (fun a => if a.id == i then { a with balanceCents := a.balanceCents + delta } else a) := by
  unfold findAccount adjustBalance
  apply find?_map_comm
  intro a
  by_cases h : (a.id == i) = true <;> simp [h]

theorem findTx_setTxStatus (db : DB) (i : String) (s : TxStatus) (j : String) :
    findTx (setTxStatus db i s) j =
      (findTx db j).map (fun t => if t.id == i then { t with status := s } else t) := by
  unfold findTx setTxStatus
  apply find?_map_comm
  intro t
  by_cases h : (t.id == i) = true <;> simp [h]

theorem applyCompleted_transactions (db : DB) (txId fromId toId : String) (amt : Int) :
    (applyCompleted db txId fromId toId amt).transactions =
      db.transactions.map
        (fun t => if t.id == txId then { t with status := .COMPLETED } else t) := rfl

/-- After the settlement block, the source balance dropped by `amt` and the
destination balance rose by `amt` (distinct accounts). -/
theorem applyCompleted_balances (db : DB) (txId fromId toId : String) (amt : Int)
    (A B : Account) (hA : findAccount db fromId = some A)
    (hB : findAccount db toId = some B) (hne : fromId ≠ toId) :
    balanceOf (applyCompleted db txId fromId toId amt) fromId = some (A.balanceCents - amt) ∧
    balanceOf (applyCompleted db txId fromId toId amt) toId = some (B.balanceCents + amt) := by
  have hAid : A.id = fromId := by
    have := List.find?_some hA
    simpa using this
  have hBid : B.id = toId := by
    have := List.find?_some hB
    simpa using this
  unfold applyCompleted balanceOf
  constructor
  · rw [findAccount_adjustBalance, findAccount_adjustBalance, findAccount_setTxStatus, hA]
    simp [hAid, hne, Int.sub_eq_add_neg]
  · rw [findAccount_adjustBalance, findAccount_adjustBalance, findAccount_setTxStatus, hB]
    simp [hBid, Ne.symm hne]

/-- After the settlement block, the transaction row is `COMPLETED`. -/
theorem applyCompleted_findTx (db : DB) (txId fromId toId : String) (amt : Int)
    (tx : Transaction) (htx : findTx db txId = some tx) :
    findTx (applyCompleted db txId fromId toId amt) txId =
      some { tx with status := .COMPLETED } := by
  have hid : tx.id = txId := by
    have := List.find?_some htx
    simpa using this
  unfold applyCompleted
  rw [findTx_adjustBalance, findTx_adjustBalance, findTx_setTxStatus, htx]
  simp [hid]

/-- The merchant id as the claim words it: lowercase the name, strip (drop)
every character outside `[a-z0-9]`, truncate to 40 characters.  Kept for
comparison against the `toMid` the code actually implements. -/
def toMidClaimed (merchantName : String) : String :=
  String.mk (((merchantName.data.map Char.toLower).filter isLowerAlnum).take 40)

/-- C9 counterexample: `toMid` does not strip characters outside `[a-z0-9]`;
it replaces each of them with an underscore, so on the merchant name
"Blue Bottle Coffee" the id sent to the simulator is "blue_bottle_coffee",
not the "bluebottlecoffee" the claim prescribes. -/
theorem C9_counterexample :
    toMid "Blue Bottle Coffee" = "blue_bottle_coffee" ∧
    toMidClaimed "Blue Bottle Coffee" = "bluebottlecoffee" ∧
    toMid "Blue Bottle Coffee" ≠ toMidClaimed "Blue Bottle Coffee" := by
  refine ⟨by decide, by decide, by decide⟩

/-- C9 (amended): for every merchant name, the merchant id sent to the
card-network simulator equals the name lowercased, with every character
outside `[a-z0-9]` replaced by an underscore (not stripped), truncated to
40 characters. -/
theorem C9_toMid_lower_underscore_truncate (s : String) :
    (toMid s).data =
      (s.data.take 40).map
        (fun c =>
          if isLowerAlnum (Char.toLower c) then Char.toLower c else Char.ofNat 95) := by
  unfold toMid
  simp only [List.map_take, List.map_map]
  rfl

/-- C1: confirming a pending internal transfer of amount N from account A
to account B marks the transaction `COMPLETED`, decreases the stored
balance of A by exactly N, increases the stored balance of B by exactly N,
and leaves the sum of the two balances unchanged. -/
theorem C1_confirm_internal (env : ConfirmEnv) (db : DB)
    (txId userId fromId toId : String) (tx : Transaction) (A B : Account)
    (htx : findTx db txId = some tx)
    (hprov : tx.provider = "internal")
    (hpend : tx.status = .PENDING)
    (hfrom : tx.fromAccountId = some fromId)
    (hto : tx.toAccountId = some toId)
    (hA : findAccount db fromId = some A)
    (hB : findAccount db toId = some B)
    (hne : fromId ≠ toId)
    (hown : ownerUserId db tx = some userId) :
    (confirmTransfer env db txId userId).2 = .ok { tx with status := .COMPLETED } ∧
    findTx (confirmTransfer env db txId userId).1 txId =
      some { tx with status := .COMPLETED } ∧
    balanceOf (confirmTransfer env db txId userId).1 fromId =
      some (A.balanceCents - tx.amountCents) ∧
    balanceOf (confirmTransfer env db txId userId).1 toId =
      some (B.balanceCents + tx.amountCents) ∧
    (A.balanceCents - tx.amountCents) + (B.balanceCents + tx.amountCents) =
      A.balanceCents + B.balanceCents := by
  have hconf : confirmTransfer env db txId userId =
      (applyCompleted db txId fromId toId tx.amountCents,
       .ok { tx with status := .COMPLETED }) := by
    unfold confirmTransfer
    rw [htx]
    simp [hown, hpend, hto, hprov, hfrom]
  rw [hconf]
  exact ⟨rfl, applyCompleted_findTx db txId fromId toId tx.amountCents tx htx,
    (applyCompleted_balances db txId fromId toId tx.amountCents A B hA hB hne).1,
    (applyCompleted_balances db txId fromId toId tx.amountCents A B hA hB hne).2,
    by ring⟩

/-- Account A of the internal-transfer scenario: balance 2,450,000. -/
def wAccA : Account := ⟨"acctA", "u1", 2450000, "usd", none, none⟩

/-- Account B of the internal-transfer scenario: balance 0. -/
def wAccB : Account := ⟨"acctB", "u1", 0, "usd", none, none⟩

/-- The pending internal transfer of 250,000 minor units from A to B. -/
def wTxInternal : Transaction :=
  ⟨"tx1", some "acctA", some "acctB", 250000, .DEBIT, .PENDING, none, "internal",
   none, none, none, none, none, none⟩

/-- Store for the internal-transfer scenario. -/
def wDB1 : DB := ⟨[wAccA, wAccB], [], [], [wTxInternal]⟩

/-- C1 witness: the 250,000-minor-unit scenario — A ends at 2,200,000, B at
250,000, the transaction is `COMPLETED`, and the sum is preserved. -/
theorem C1_confirm_internal_witness :
    (confirmTransfer ⟨"completed", "succeeded"⟩ wDB1 "tx1" "u1").2 =
      .ok { wTxInternal with status := .COMPLETED } ∧
    findTx (confirmTransfer ⟨"completed", "succeeded"⟩ wDB1 "tx1" "u1").1 "tx1" =
      some { wTxInternal with status := .COMPLETED } ∧
    balanceOf (confirmTransfer ⟨"completed", "succeeded"⟩ wDB1 "tx1" "u1").1 "acctA" =
      some (2450000 - 250000) ∧
    balanceOf (confirmTransfer ⟨"completed", "succeeded"⟩ wDB1 "tx1" "u1").1 "acctB" =
      some (0 + 250000) ∧
    ((2450000 : Int) - 250000) + (0 + 250000) = 2450000 + 0 :=
  C1_confirm_internal ⟨"completed", "succeeded"⟩ wDB1 "tx1" "u1" "acctA" "acctB"
    wTxInternal wAccA wAccB (by decide) rfl rfl rfl rfl (by decide) (by decide)
    (by decide) (by decide)

/-- The operation left the store untouched and threw an error carrying the
machine code `INVALID_STATE`. -/
def failsInvalidState (db : DB) (r : DB × Except AppErr Transaction) : Prop :=
  r.1 = db ∧ ∃ e, r.2 = .error e ∧ e.code = some "INVALID_STATE"

/-- C2: once a transaction is `COMPLETED`, `FAILED` or `CANCELLED`, every
state-mutating operation on it — confirm, cancel, card post, card void —
throws `INVALID_STATE` (for a caller that passes the checks preceding the
status guard) and leaves the store untouched; no call by any caller ever
mutates the store, so no transition out of a terminal status occurs. -/
theorem C2_terminal_immutable (cenv : ConfirmEnv) (xenv : CancelEnv) (db : DB)
    (txId userId : String) (tx : Transaction)
    (htx : findTx db txId = some tx)
    (hterm : tx.status = .COMPLETED ∨ tx.status = .FAILED ∨ tx.status = .CANCELLED) :
    (ownerUserId db tx = some userId →
      failsInvalidState db (confirmTransfer cenv db txId userId) ∧
      failsInvalidState db (cancelTransfer xenv db txId userId)) ∧
    (tx.provider = "card" →
      failsInvalidState db (postCardTransaction db txId userId) ∧
      failsInvalidState db (cancelCardTransaction db txId userId)) ∧
    (confirmTransfer cenv db txId userId).1 = db ∧
    (cancelTransfer xenv db txId userId).1 = db ∧
    (postCardTransaction db txId userId).1 = db ∧
    (cancelCardTransaction db txId userId).1 = db := by
  have hnp : tx.status ≠ .PENDING := by rcases hterm with h | h | h <;> simp [h]
  refine ⟨fun hown => ⟨?_, ?_⟩, fun hc => ⟨?_, ?_⟩, ?_, ?_, ?_, ?_⟩
  · unfold confirmTransfer failsInvalidState
    rw [htx]
    simp [hown, hnp]
  · unfold cancelTransfer failsInvalidState
    rw [htx]
    simp [hown, hnp]
  · unfold postCardTransaction failsInvalidState
    rw [htx]
    simp [hc, hnp]
  · unfold cancelCardTransaction failsInvalidState
    rw [htx]
    simp [hc, hnp]
  · by_cases hown : ownerUserId db tx = some userId
    · unfold confirmTransfer; rw [htx]; simp [hown, hnp]
    · unfold confirmTransfer; rw [htx]; simp [hown]
  · by_cases hown : ownerUserId db tx = some userId
    · unfold cancelTransfer; rw [htx]; simp [hown, hnp]
    · unfold cancelTransfer; rw [htx]; simp [hown]
  · by_cases hc : tx.provider = "card"
    · unfold postCardTransaction; rw [htx]; simp [hc, hnp]
    · unfold postCardTransaction; rw [htx]; simp [hc]
  · by_cases hc : tx.provider = "card"
    · unfold cancelCardTransaction; rw [htx]; simp [hc, hnp]
    · unfold cancelCardTransaction; rw [htx]; simp [hc]

/-- Account used by the terminal-status scenario. -/
def wAccC : Account := ⟨"acctC", "u2", 10000, "usd", none, none⟩

/-- An already-completed card transaction. -/
def wTxCardDone : Transaction :=
  ⟨"tx2", none, some "acctC", 500, .DEBIT, .COMPLETED, none, "card",
   none, none, none, some "card1", some "shop", none⟩

/-- Store for the terminal-status scenario. -/
def wDB2 : DB := ⟨[wAccC], [], [], [wTxCardDone]⟩

/-- C2 witness: on a completed card transaction, confirm, cancel, post and
void all throw `INVALID_STATE` and leave the store untouched. -/
theorem C2_terminal_immutable_witness :
    failsInvalidState wDB2 (confirmTransfer ⟨"completed", "succeeded"⟩ wDB2 "tx2" "u2") ∧
    failsInvalidState wDB2 (cancelTransfer ⟨true, true⟩ wDB2 "tx2" "u2") ∧
    failsInvalidState wDB2 (postCardTransaction wDB2 "tx2" "u2") ∧
    failsInvalidState wDB2 (cancelCardTransaction wDB2 "tx2" "u2") := by
  have h := C2_terminal_immutable ⟨"completed", "succeeded"⟩ ⟨true, true⟩ wDB2 "tx2" "u2"
    wTxCardDone (by decide) (Or.inl rfl)
  exact ⟨(h.1 (by decide)).1, (h.1 (by decide)).2, (h.2.1 rfl).1, (h.2.1 rfl).2⟩

/-- C4: on every provider path that requires a source account (source id
present, so card-funding is excluded), initiating a transfer whose amount
exceeds the source's stored balance throws `INSUFFICIENT_FUNDS` and
returns the store untouched — no transaction row, no balance change. -/
theorem C4_insufficient_funds (env : InitiateEnv) (db : DB) (userId : String)
    (fromId toId : String) (amountCents : Int) (memo : Option String)
    (provider : String) (rail pm : Option String) (fromAccount toAccount : Account)
    (hto : findAccount db toId = some toAccount)
    (hfrom : findAccount db fromId = some fromAccount)
    (hownf : fromAccount.userId = userId)
    (hne : fromId ≠ toId)
    (hpos : 0 < amountCents)
    (hinsuf : fromAccount.balanceCents < amountCents) :
    initiateTransfer env db userId (some fromId) toId amountCents memo provider rail pm =
      (db, .error ⟨"Insufficient funds", 400, some "INSUFFICIENT_FUNDS"⟩) := by
  have hnle : ¬ amountCents ≤ 0 := by omega
  unfold initiateTransfer
  rw [hto]
  simp [hfrom, hownf, hne, hnle, hinsuf]

/-- Source account of the insufficient-funds scenario: balance 50. -/
def wAccS : Account := ⟨"acctS", "u3", 50, "usd", none, none⟩

/-- Destination account of the insufficient-funds scenario. -/
def wAccD : Account := ⟨"acctD", "u3", 0, "usd", none, none⟩

/-- Store for the insufficient-funds scenario: no transactions yet. -/
def wDB3 : DB := ⟨[wAccS, wAccD], [], [], []⟩

/-- C4 witness: amount 100 against a source balance of 50 fails with
`INSUFFICIENT_FUNDS` and creates no transaction row. -/
theorem C4_insufficient_funds_witness :
    initiateTransfer ⟨"pi", none, "mt", none, "nt", "new1"⟩ wDB3 "u3" (some "acctS")
        "acctD" 100 none "internal" none none =
      (wDB3, .error ⟨"Insufficient funds", 400, some "INSUFFICIENT_FUNDS"⟩) :=
  C4_insufficient_funds ⟨"pi", none, "mt", none, "nt", "new1"⟩ wDB3 "u3" "acctS" "acctD"
    100 none "internal" none none wAccS wAccD (by decide) (by decide) rfl (by decide)
    (by decide) (by decide)

/-- C7: creating a card transaction of any kind on a frozen card throws
`CARD_FROZEN` and returns the store untouched — no transaction row, no
balance change. -/
theorem C7_frozen_card (env : CardEnv) (db : DB) (cardId userId : String)
    (type : CardTxType) (amountCents : Int) (merchantName : String)
    (memo : Option String) (card : Card)
    (hcard : findCard db cardId = some card)
    (hown : (findAccount db card.accountId).map (fun a => a.userId) = some userId)
    (hfrozen : card.status = .FROZEN) :
    createCardTransaction env db cardId userId type amountCents merchantName memo =
      (db, .error ⟨"Card is frozen", 400, some "CARD_FROZEN"⟩) := by
  unfold createCardTransaction
  rw [hcard]
  simp [hown, hfrozen]

/-- Account behind the frozen card. -/
def wAccF : Account := ⟨"acctF", "u4", 10000, "usd", none, none⟩

/-- A frozen card. -/
def wCardF : Card := ⟨"card4", "acctF", .FROZEN, none⟩

/-- Store for the frozen-card scenario. -/
def wDB4 : DB := ⟨[wAccF], [], [wCardF], []⟩

/-- C7 witness: all three kinds — auth, purchase, credit — are rejected on
the frozen card with `CARD_FROZEN` and the store is unchanged. -/
theorem C7_frozen_card_witness :
    createCardTransaction ⟨"mq", "new"⟩ wDB4 "card4" "u4" .auth 500 "Shop" none =
      (wDB4, .error ⟨"Card is frozen", 400, some "CARD_FROZEN"⟩) ∧
    createCardTransaction ⟨"mq", "new"⟩ wDB4 "card4" "u4" .purchase 500 "Shop" none =
      (wDB4, .error ⟨"Card is frozen", 400, some "CARD_FROZEN"⟩) ∧
    createCardTransaction ⟨"mq", "new"⟩ wDB4 "card4" "u4" .credit 500 "Shop" none =
      (wDB4, .error ⟨"Card is frozen", 400, some "CARD_FROZEN"⟩) :=
  ⟨C7_frozen_card ⟨"mq", "new"⟩ wDB4 "card4" "u4" .auth 500 "Shop" none wCardF
      (by decide) (by decide) rfl,
   C7_frozen_card ⟨"mq", "new"⟩ wDB4 "card4" "u4" .purchase 500 "Shop" none wCardF
      (by decide) (by decide) rfl,
   C7_frozen_card ⟨"mq", "new"⟩ wDB4 "card4" "u4" .credit 500 "Shop" none wCardF
      (by decide) (by decide) rfl⟩

/-- C8: cancelling a pending transaction owned by the actor never depends
on the provider revoke outcome (the adapter errors are swallowed), always
ends with the transaction marked `CANCELLED`, and mutates no account
balance. -/
theorem C8_cancel_best_effort (env env' : CancelEnv) (db : DB)
    (txId userId : String) (tx : Transaction)
    (htx : findTx db txId = some tx)
    (hpend : tx.status = .PENDING)
    (hown : ownerUserId db tx = some userId) :
    cancelTransfer env db txId userId = cancelTransfer env' db txId userId ∧
    cancelTransfer env db txId userId =
      (setTxStatus db txId .CANCELLED, .ok { tx with status := .CANCELLED }) ∧
    (cancelTransfer env db txId userId).1.accounts = db.accounts := by
  have he : ∀ e : CancelEnv, cancelTransfer e db txId userId =
      (setTxStatus db txId .CANCELLED, .ok { tx with status := .CANCELLED }) := by
    intro e
    unfold cancelTransfer
    rw [htx]
    simp [hown, hpend]
  exact ⟨(he env).trans (he env').symm, he env, by rw [he env]; rfl⟩

/-- A pending Moov transfer from A to B, used by the cancel and webhook
scenarios. -/
def wTxMoovPend : Transaction :=
  ⟨"tx5", some "acctA", some "acctB", 1000, .DEBIT, .PENDING, none, "moov",
   none, some "mv5", none, none, none, none⟩

/-- Store for the cancel scenario. -/
def wDB5 : DB := ⟨[wAccA, wAccB], [], [], [wTxMoovPend]⟩

/-- C8 witness: a failing provider revoke (`env = ⟨false, false⟩`) and a
succeeding one lead to the same outcome: transaction `CANCELLED`, accounts
untouched. -/
theorem C8_cancel_best_effort_witness :
    cancelTransfer ⟨false, false⟩ wDB5 "tx5" "u1" = cancelTransfer ⟨true, true⟩ wDB5 "tx5" "u1" ∧
    cancelTransfer ⟨false, false⟩ wDB5 "tx5" "u1" =
      (setTxStatus wDB5 "tx5" .CANCELLED, .ok { wTxMoovPend with status := .CANCELLED }) ∧
    (cancelTransfer ⟨false, false⟩ wDB5 "tx5" "u1").1.accounts = wDB5.accounts :=
  C8_cancel_best_effort ⟨false, false⟩ ⟨true, true⟩ wDB5 "tx5" "u1" wTxMoovPend
    (by decide) rfl (by decide)

/-- The Moov branch of `confirmTransfer`, on a pending, owned, two-sided
Moov transaction: the `failed` adapter answer marks the transaction
`FAILED` and throws `PAYMENT_FAILED`; every other answer — including
in-flight ones — settles optimistically. -/
theorem confirmTransfer_moov_eq (env : ConfirmEnv) (db : DB)
    (txId userId fromId toId : String) (tx : Transaction)
    (htx : findTx db txId = some tx)
    (hprov : tx.provider = "moov")
    (hpend : tx.status = .PENDING)
    (hmid : tx.moovTransferId.isSome = true)
    (hfrom : tx.fromAccountId = some fromId)
    (hto : tx.toAccountId = some toId)
    (hown : ownerUserId db tx = some userId) :
    confirmTransfer env db txId userId =
      if env.moovStatus = "failed" then
        (setTxStatus db txId .FAILED,
         .error ⟨"Moov transfer failed with status: " ++ env.moovStatus, 400,
                 some "PAYMENT_FAILED"⟩)
      else
        (applyCompleted db txId fromId toId tx.amountCents,
         .ok { tx with status := .COMPLETED }) := by
  unfold confirmTransfer
  rw [htx]
  by_cases hf : env.moovStatus = "failed"
  · simp [hown, hpend, hto, hprov, hmid, hfrom, hf]
  · simp [hown, hpend, hto, hprov, hmid, hfrom, hf]

/-- C5: confirming a pending Moov transaction queries the adapter; a
`failed` answer marks the transaction `FAILED`, raises `PAYMENT_FAILED`
and leaves both balances untouched; every other answer (including
in-flight statuses) marks it `COMPLETED` and applies the
source-decrement/destination-increment update. -/
theorem C5_confirm_moov (env : ConfirmEnv) (db : DB)
    (txId userId fromId toId : String) (tx : Transaction) (A B : Account)
    (htx : findTx db txId = some tx)
    (hprov : tx.provider = "moov")
    (hpend : tx.status = .PENDING)
    (hmid : tx.moovTransferId.isSome = true)
    (hfrom : tx.fromAccountId = some fromId)
    (hto : tx.toAccountId = some toId)
    (hown : ownerUserId db tx = some userId)
    (hA : findAccount db fromId = some A)
    (hB : findAccount db toId = some B)
    (hne : fromId ≠ toId) :
    (env.moovStatus = "failed" →
      confirmTransfer env db txId userId =
        (setTxStatus db txId .FAILED,
         .error ⟨"Moov transfer failed with status: failed", 400, some "PAYMENT_FAILED"⟩) ∧
      balanceOf (setTxStatus db txId .FAILED) fromId = some A.balanceCents ∧
      balanceOf (setTxStatus db txId .FAILED) toId = some B.balanceCents ∧
      findTx (setTxStatus db txId .FAILED) txId = some { tx with status := .FAILED }) ∧
    (env.moovStatus ≠ "failed" →
      (confirmTransfer env db txId userId).2 = .ok { tx with status := .COMPLETED } ∧
      findTx (confirmTransfer env db txId userId).1 txId =
        some { tx with status := .COMPLETED } ∧
      balanceOf (confirmTransfer env db txId userId).1 fromId =
        some (A.balanceCents - tx.amountCents) ∧
      balanceOf (confirmTransfer env db txId userId).1 toId =
        some (B.balanceCents + tx.amountCents)) := by
  have hid : tx.id = txId := by simpa using List.find?_some htx
  have heq := confirmTransfer_moov_eq env db txId userId fromId toId tx htx hprov hpend
    hmid hfrom hto hown
  constructor
  · intro hf
    rw [heq, if_pos hf]
    refine ⟨by rw [hf]; rfl, ?_, ?_, ?_⟩
    · unfold balanceOf; rw [findAccount_setTxStatus, hA]; rfl
    · unfold balanceOf; rw [findAccount_setTxStatus, hB]; rfl
    · rw [findTx_setTxStatus, htx]; simp [hid]
  · intro hf
    rw [heq, if_neg hf]
    exact ⟨rfl, applyCompleted_findTx db txId fromId toId tx.amountCents tx htx,
      (applyCompleted_balances db txId fromId toId tx.amountCents A B hA hB hne).1,
      (applyCompleted_balances db txId fromId toId tx.amountCents A B hA hB hne).2⟩

/-- C5 witness: on the pending 1,000-minor-unit Moov transfer, a `failed`
adapter answer marks it `FAILED` with untouched balances, while a
`pending` answer settles it optimistically (A 2,449,000 / B 1,000). -/
theorem C5_confirm_moov_witness :
    (confirmTransfer ⟨"failed", ""⟩ wDB5 "tx5" "u1" =
       (setTxStatus wDB5 "tx5" .FAILED,
        .error ⟨"Moov transfer failed with status: failed", 400, some "PAYMENT_FAILED"⟩) ∧
     balanceOf (setTxStatus wDB5 "tx5" .FAILED) "acctA" = some 2450000 ∧
     balanceOf (setTxStatus wDB5 "tx5" .FAILED) "acctB" = some 0 ∧
     findTx (setTxStatus wDB5 "tx5" .FAILED) "tx5" =
       some { wTxMoovPend with status := .FAILED }) ∧
    ((confirmTransfer ⟨"pending", ""⟩ wDB5 "tx5" "u1").2 =
       .ok { wTxMoovPend with status := .COMPLETED } ∧
     findTx (confirmTransfer ⟨"pending", ""⟩ wDB5 "tx5" "u1").1 "tx5" =
       some { wTxMoovPend with status := .COMPLETED } ∧
     balanceOf (confirmTransfer ⟨"pending", ""⟩ wDB5 "tx5" "u1").1 "acctA" =
       some (2450000 - 1000) ∧
     balanceOf (confirmTransfer ⟨"pending", ""⟩ wDB5 "tx5" "u1").1 "acctB" =
       some (0 + 1000)) :=
  ⟨(C5_confirm_moov ⟨"failed", ""⟩ wDB5 "tx5" "u1" "acctA" "acctB" wTxMoovPend wAccA wAccB
      (by decide) rfl rfl rfl rfl rfl (by decide) (by decide) (by decide) (by decide)).1 rfl,
   (C5_confirm_moov ⟨"pending", ""⟩ wDB5 "tx5" "u1" "acctA" "acctB" wTxMoovPend wAccA wAccB
      (by decide) rfl rfl rfl rfl rfl (by decide) (by decide) (by decide) (by decide)).2
     (by decide)⟩

/-- C10: neither `createCardTransaction purchase` nor
`postCardTransaction` compares the amount with the stored balance: both
succeed for any amount and decrement the destination balance
unconditionally, so an amount above the balance drives it negative. -/
theorem C10_unchecked_balance (env : CardEnv) (db : DB) (cardId userId : String)
    (amountCents : Int) (merchantName : String) (memo : Option String)
    (card : Card) (acc : Account) (tid : String) (ptx : Transaction) (toAcc : Account)
    (hcard : findCard db cardId = some card)
    (hacc : findAccount db card.accountId = some acc)
    (hown : acc.userId = userId)
    (hactive : card.status ≠ .FROZEN)
    (htx : findTx db tid = some ptx)
    (hprovP : ptx.provider = "card")
    (hpendP : ptx.status = .PENDING)
    (htoP : ptx.toAccountId.bind (findAccount db) = some toAcc)
    (hownP : toAcc.userId = userId) :
    (∃ t, (createCardTransaction env db cardId userId .purchase amountCents
        merchantName memo).2 = .ok t ∧ t.status = .COMPLETED) ∧
    balanceOf (createCardTransaction env db cardId userId .purchase amountCents
        merchantName memo).1 card.accountId = some (acc.balanceCents - amountCents) ∧
    (postCardTransaction db tid userId).2 = .ok { ptx with status := .COMPLETED } ∧
    balanceOf (postCardTransaction db tid userId).1 toAcc.id =
      some (toAcc.balanceCents - ptx.amountCents) ∧
    (acc.balanceCents < amountCents → acc.balanceCents - amountCents < 0) ∧
    (toAcc.balanceCents < ptx.amountCents → toAcc.balanceCents - ptx.amountCents < 0) := by
  have haid : acc.id = card.accountId := by simpa using List.find?_some hacc
  obtain ⟨i, hi, hfi⟩ : ∃ i, ptx.toAccountId = some i ∧ findAccount db i = some toAcc := by
    cases h : ptx.toAccountId with
    | none => rw [h] at htoP; simp at htoP
    | some i => rw [h] at htoP; exact ⟨i, rfl, by simpa using htoP⟩
  have htid : toAcc.id = i := by simpa using List.find?_some hfi
  have hpur : ∃ t, createCardTransaction env db cardId userId .purchase amountCents
      merchantName memo =
      (adjustBalance (addTx db t) card.accountId (-amountCents), .ok t) ∧
      t.status = .COMPLETED := by
    unfold createCardTransaction
    rw [hcard]
    simp [hacc, hown, hactive]
    exact ⟨_, ⟨rfl, rfl⟩, rfl⟩
  obtain ⟨t, ht, hts⟩ := hpur
  have hpost : postCardTransaction db tid userId =
      (adjustBalance (setTxStatus db tid .COMPLETED) toAcc.id (-ptx.amountCents),
       .ok { ptx with status := .COMPLETED }) := by
    unfold postCardTransaction
    rw [htx]
    simp [hprovP, hpendP, hi, hfi, hownP]
  refine ⟨⟨t, by rw [ht], hts⟩, ?_, by rw [hpost], ?_, by omega, by omega⟩
  · rw [ht]
    unfold balanceOf
    rw [findAccount_adjustBalance, findAccount_addTx, hacc]
    simp [haid, Int.sub_eq_add_neg]
  · rw [hpost]
    unfold balanceOf
    rw [findAccount_adjustBalance, findAccount_setTxStatus, htid, hfi]
    simp [htid, Int.sub_eq_add_neg]

/-- Account with balance 100 behind an active card. -/
def wAccN : Account := ⟨"acctN", "u5", 100, "usd", none, none⟩

/-- The active card of the overdraft scenario. -/
def wCardN : Card := ⟨"card5", "acctN", .ACTIVE, none⟩

/-- A pending card authorization of 500 against the balance-100 account. -/
def wTxAuthN : Transaction :=
  ⟨"tx7", none, some "acctN", 500, .DEBIT, .PENDING, none, "card",
   none, none, none, some "card5", some "shop", none⟩

/-- Store for the overdraft scenario. -/
def wDB6 : DB := ⟨[wAccN], [], [wCardN], [wTxAuthN]⟩

/-- C10 witness: on a balance of 100, a 500 purchase succeeds and leaves
the stored balance at `100 - 500 = -400`; posting the pending 500
authorization likewise succeeds and leaves `-400`. -/
theorem C10_unchecked_balance_witness :
    (∃ t, (createCardTransaction ⟨"mq", "new7"⟩ wDB6 "card5" "u5" .purchase 500
        "shop" none).2 = .ok t ∧ t.status = .COMPLETED) ∧
    balanceOf (createCardTransaction ⟨"mq", "new7"⟩ wDB6 "card5" "u5" .purchase 500
        "shop" none).1 "acctN" = some (100 - 500) ∧
    (postCardTransaction wDB6 "tx7" "u5").2 = .ok { wTxAuthN with status := .COMPLETED } ∧
    balanceOf (postCardTransaction wDB6 "tx7" "u5").1 "acctN" = some (100 - 500) ∧
    ((100 : Int) - 500 < 0) := by
  have h := C10_unchecked_balance ⟨"mq", "new7"⟩ wDB6 "card5" "u5" 500 "shop" none
    wCardN wAccN "tx7" wTxAuthN wAccN (by decide) (by decide) rfl (by decide)
    (by decide) rfl rfl (by decide) rfl
  exact ⟨h.1, h.2.1, h.2.2.1, h.2.2.2.1, h.2.2.2.2.1 (by decide)⟩

/-- A pending Stripe card-funding transaction: no source account id. -/
def wTxFund : Transaction :=
  ⟨"tx6", none, some "acctB", 100, .CREDIT, .PENDING, none, "stripe",
   some "pi6", none, none, none, none, none⟩

/-- Store for the card-funding webhook scenario. -/
def wDB7 : DB := ⟨[wAccB], [], [], [wTxFund]⟩

/-- C6 counterexample: a pending Stripe card-funding transaction (source
account id absent) is matched by the webhook lookup, yet the success event
is a complete no-op — the status flip to `COMPLETED` does not happen,
because the account-id guard returns before every mutation. -/
theorem C6_counterexample :
    wDB7.transactions.find?
        (fun t => decide (t.stripePaymentIntentId = some "pi6" ∧ t.status = .PENDING)) =
      some wTxFund ∧
    handleStripeWebhook wDB7 "pi6" .payment_intent_succeeded = wDB7 ∧
    findTx (handleStripeWebhook wDB7 "pi6" .payment_intent_succeeded) "tx6" =
      some wTxFund ∧
    wTxFund.status = .PENDING := by
  refine ⟨by decide, by decide, by decide, rfl⟩

/-- C6 (amended): on a success outcome, the webhook handlers atomically
mark the matched pending transaction `COMPLETED` and apply the same
settlement block as Confirm — but only when both account ids are present;
the guard covers the whole update, and a matched transaction missing
either account id is left entirely untouched (no status flip either). -/
theorem C6_webhook_success_guard (db : DB) (piId mid : String)
    (stx mtx : Transaction)
    (hfindS : db.transactions.find?
        (fun t => decide (t.stripePaymentIntentId = some piId ∧ t.status = .PENDING)) =
      some stx)
    (hfindM : db.transactions.find?
        (fun t => decide (t.moovTransferId = some mid ∧ t.status = .PENDING)) =
      some mtx) :
    (∀ fromId toId, stx.fromAccountId = some fromId → stx.toAccountId = some toId →
      handleStripeWebhook db piId .payment_intent_succeeded =
        applyCompleted db stx.id fromId toId stx.amountCents) ∧
    (stx.fromAccountId = none ∨ stx.toAccountId = none →
      handleStripeWebhook db piId .payment_intent_succeeded = db) ∧
    (∀ fromId toId, mtx.fromAccountId = some fromId → mtx.toAccountId = some toId →
      handleMoovWebhook db mid .completed =
        applyCompleted db mtx.id fromId toId mtx.amountCents) ∧
    (mtx.fromAccountId = none ∨ mtx.toAccountId = none →
      handleMoovWebhook db mid .completed = db) := by
  refine ⟨?_, ?_, ?_, ?_⟩
  · intro fromId toId hf ht
    unfold handleStripeWebhook
    rw [hfindS]
    simp [hf, ht]
  · intro h
    unfold handleStripeWebhook
    rw [hfindS]
    rcases h with h | h
    · simp [h]
    · cases hf : stx.fromAccountId <;> simp [h, hf]
  · intro fromId toId hf ht
    unfold handleMoovWebhook
    rw [hfindM]
    simp [hf, ht]
  · intro h
    unfold handleMoovWebhook
    rw [hfindM]
    rcases h with h | h
    · simp [h]
    · cases hf : mtx.fromAccountId <;> simp [h, hf]

/-- A pending two-sided Stripe transfer from A to B. -/
def wTxStrPend : Transaction :=
  ⟨"tx8", some "acctA", some "acctB", 700, .DEBIT, .PENDING, none, "stripe",
   some "pi8", none, none, none, none, none⟩

/-- Store holding one pending Stripe and one pending Moov transfer. -/
def wDB8 : DB := ⟨[wAccA, wAccB], [], [], [wTxStrPend, wTxMoovPend]⟩

/-- C6 witness: with both account ids present, the success webhooks apply
the settlement block on the matched transaction for both providers. -/
theorem C6_webhook_success_guard_witness :
    handleStripeWebhook wDB8 "pi8" .payment_intent_succeeded =
      applyCompleted wDB8 "tx8" "acctA" "acctB" 700 ∧
    handleMoovWebhook wDB8 "mv5" .completed =
      applyCompleted wDB8 "tx5" "acctA" "acctB" 1000 := by
  have h := C6_webhook_success_guard wDB8 "pi8" "mv5" wTxStrPend wTxMoovPend
    (by decide) (by decide)
  exact ⟨h.1 "acctA" "acctB" rfl rfl, h.2.2.1 "acctA" "acctB" rfl rfl⟩

/-- After setting the status of the (unique) transaction that carries the
correlation id `mid` to a non-`PENDING` value, the webhook lookup for
`mid` finds nothing. -/
theorem corrMatch_none_after_set (db : DB) (proj : Transaction → Option String)
    (mid tid : String) (s : TxStatus) (hs : s ≠ .PENDING)
    (huniq : ∀ t ∈ db.transactions, proj t = some mid → t.id = tid) :
    (db.transactions.map (fun t => if t.id == tid then { t with status := s } else t)).find?
      (fun t => decide (proj t = some mid ∧ t.status = .PENDING)) = none := by
  apply find?_map_none
  intro t ht
  by_cases h1 : (t.id == tid) = true
  · rw [if_pos h1, decide_eq_false_iff_not]
    rintro ⟨-, hstat⟩
    exact hs hstat
  · rw [if_neg h1, decide_eq_false_iff_not]
    rintro ⟨hm, -⟩
    exact h1 (by simp [huniq t ht hm])

/-- A Moov webhook whose lookup finds no pending match is a no-op. -/
theorem handleMoovWebhook_noop (db : DB) (mid : String)
    (h : db.transactions.find?
        (fun t => decide (t.moovTransferId = some mid ∧ t.status = .PENDING)) = none)
    (ev : MoovEvent) : handleMoovWebhook db mid ev = db := by
  unfold handleMoovWebhook
  rw [h]

/-- A Stripe webhook whose lookup finds no pending match is a no-op. -/
theorem handleStripeWebhook_noop (db : DB) (piId : String)
    (h : db.transactions.find?
        (fun t => decide (t.stripePaymentIntentId = some piId ∧ t.status = .PENDING)) = none)
    (ev : StripeEvent) : handleStripeWebhook db piId ev = db := by
  unfold handleStripeWebhook
  rw [h]

/-- A confirm call on a transaction that is no longer `PENDING` never
mutates the store, whoever the caller is. -/
theorem confirmTransfer_fst_nonpending (env : ConfirmEnv) (db : DB)
    (tid u : String) (tx : Transaction)
    (htx : findTx db tid = some tx) (hnp : tx.status ≠ .PENDING) :
    (confirmTransfer env db tid u).1 = db := by
  unfold confirmTransfer
  rw [htx]
  by_cases hown : ownerUserId db tx = some u
  · simp [hown, hnp]
  · simp [hown]

/-- A matched Moov success webhook on a two-sided transaction performs the
settlement block. -/
theorem handleMoovWebhook_completed_eq (db : DB) (mid fromId toId : String)
    (tx : Transaction)
    (hfind : db.transactions.find?
        (fun t => decide (t.moovTransferId = some mid ∧ t.status = .PENDING)) = some tx)
    (hfrom : tx.fromAccountId = some fromId) (hto : tx.toAccountId = some toId) :
    handleMoovWebhook db mid .completed =
      applyCompleted db tx.id fromId toId tx.amountCents := by
  unfold handleMoovWebhook
  rw [hfind]
  simp [hfrom, hto]

/-- A matched Moov failure webhook marks the transaction `FAILED`. -/
theorem handleMoovWebhook_failed_eq (db : DB) (mid : String) (tx : Transaction)
    (hfind : db.transactions.find?
        (fun t => decide (t.moovTransferId = some mid ∧ t.status = .PENDING)) = some tx) :
    handleMoovWebhook db mid .failed = setTxStatus db tx.id .FAILED := by
  unfold handleMoovWebhook
  rw [hfind]

/-- A matched Stripe success webhook on a two-sided transaction performs
the settlement block. -/
theorem handleStripeWebhook_succeeded_eq (db : DB) (piId fromId toId : String)
    (tx : Transaction)
    (hfind : db.transactions.find?
        (fun t => decide (t.stripePaymentIntentId = some piId ∧ t.status = .PENDING)) =
      some tx)
    (hfrom : tx.fromAccountId = some fromId) (hto : tx.toAccountId = some toId) :
    handleStripeWebhook db piId .payment_intent_succeeded =
      applyCompleted db tx.id fromId toId tx.amountCents := by
  unfold handleStripeWebhook
  rw [hfind]
  simp [hfrom, hto]

/-- A matched Stripe failure webhook marks the transaction `FAILED`. -/
theorem handleStripeWebhook_failed_eq (db : DB) (piId : String) (tx : Transaction)
    (hfind : db.transactions.find?
        (fun t => decide (t.stripePaymentIntentId = some piId ∧ t.status = .PENDING)) =
      some tx) :
    handleStripeWebhook db piId .payment_intent_payment_failed =
      setTxStatus db tx.id .FAILED := by
  unfold handleStripeWebhook
  rw [hfind]

/-- The Stripe branch of `confirmTransfer`, on a pending, owned, two-sided
Stripe transaction: a non-`succeeded` PaymentIntent marks it `FAILED` and
throws `PAYMENT_FAILED`; `succeeded` settles. -/
theorem confirmTransfer_stripe_eq (env : ConfirmEnv) (db : DB)
    (txId userId fromId toId pid : String) (tx : Transaction)
    (htx : findTx db txId = some tx)
    (hprov : tx.provider = "stripe")
    (hpend : tx.status = .PENDING)
    (hnomid : tx.moovTransferId = none)
    (hpid : tx.stripePaymentIntentId = some pid)
    (hfrom : tx.fromAccountId = some fromId)
    (hto : tx.toAccountId = some toId)
    (hown : ownerUserId db tx = some userId) :
    confirmTransfer env db txId userId =
      if env.stripeStatus = "succeeded" then
        (applyCompleted db txId fromId toId tx.amountCents,
         .ok { tx with status := .COMPLETED })
      else
        (setTxStatus db txId .FAILED,
         .error ⟨"Payment failed with status: " ++ env.stripeStatus, 400,
                 some "PAYMENT_FAILED"⟩) := by
  unfold confirmTransfer
  rw [htx]
  by_cases hs : env.stripeStatus = "succeeded"
  · simp [hown, hpend, hto, hprov, hnomid, hpid, hfrom, hs]
  · simp [hown, hpend, hto, hprov, hnomid, hpid, hfrom, hs]

/-- C3: for a pending transaction carrying a provider correlation id, the
confirm call and the provider webhook together apply the ledger update at
most once, in either order: after a confirm has run, any webhook for the
same correlation id (including redelivery) is a no-op; after a webhook has
run, a confirm mutates nothing; and a second webhook delivery is a no-op.
Stated for both the Moov and the Stripe correlation paths. -/
theorem C3_confirm_webhook_once (env : ConfirmEnv) (db : DB)
    (tid sid userId mid pid fromId toId sfromId stoId : String)
    (tx stx : Transaction)
    (htx : findTx db tid = some tx)
    (hprov : tx.provider = "moov")
    (hpend : tx.status = .PENDING)
    (hmid : tx.moovTransferId = some mid)
    (hfrom : tx.fromAccountId = some fromId)
    (hto : tx.toAccountId = some toId)
    (hown : ownerUserId db tx = some userId)
    (hfind : db.transactions.find?
        (fun t => decide (t.moovTransferId = some mid ∧ t.status = .PENDING)) = some tx)
    (huniq : ∀ t ∈ db.transactions, t.moovTransferId = some mid → t.id = tid)
    (hstx : findTx db sid = some stx)
    (hsprov : stx.provider = "stripe")
    (hspend : stx.status = .PENDING)
    (hsnomid : stx.moovTransferId = none)
    (hspid : stx.stripePaymentIntentId = some pid)
    (hsfrom : stx.fromAccountId = some sfromId)
    (hsto : stx.toAccountId = some stoId)
    (hsown : ownerUserId db stx = some userId)
    (hsfind : db.transactions.find?
        (fun t => decide (t.stripePaymentIntentId = some pid ∧ t.status = .PENDING)) =
      some stx)
    (hsuniq : ∀ t ∈ db.transactions, t.stripePaymentIntentId = some pid → t.id = sid) :
    (∀ ev, handleMoovWebhook (confirmTransfer env db tid userId).1 mid ev =
      (confirmTransfer env db tid userId).1) ∧
    (∀ ev u, (confirmTransfer env (handleMoovWebhook db mid ev) tid u).1 =
      handleMoovWebhook db mid ev) ∧
    (∀ ev ev2, handleMoovWebhook (handleMoovWebhook db mid ev) mid ev2 =
      handleMoovWebhook db mid ev) ∧
    (∀ ev, handleStripeWebhook (confirmTransfer env db sid userId).1 pid ev =
      (confirmTransfer env db sid userId).1) ∧
    (∀ ev u, (confirmTransfer env (handleStripeWebhook db pid ev) sid u).1 =
      handleStripeWebhook db pid ev) ∧
    (∀ ev ev2, handleStripeWebhook (handleStripeWebhook db pid ev) pid ev2 =
      handleStripeWebhook db pid ev) := by
  have hid : tx.id = tid := by simpa using List.find?_some htx
  have hsid : stx.id = sid := by simpa using List.find?_some hstx
  have hmconf := confirmTransfer_moov_eq env db tid userId fromId toId tx htx hprov hpend
    (by simp [hmid]) hfrom hto hown
  have hsconf := confirmTransfer_stripe_eq env db sid userId sfromId stoId pid stx hstx
    hsprov hspend hsnomid hspid hsfrom hsto hsown
  refine ⟨?_, ?_, ?_, ?_, ?_, ?_⟩
  · intro ev
    by_cases hf : env.moovStatus = "failed"
    · rw [hmconf, if_pos hf]
      exact handleMoovWebhook_noop _ mid
        (corrMatch_none_after_set db (fun t => t.moovTransferId) mid tid .FAILED
          (by decide) huniq) ev
    · rw [hmconf, if_neg hf]
      exact handleMoovWebhook_noop _ mid
        (corrMatch_none_after_set db (fun t => t.moovTransferId) mid tid .COMPLETED
          (by decide) huniq) ev
  · intro ev u
    cases ev with
    | completed =>
      rw [handleMoovWebhook_completed_eq db mid fromId toId tx hfind hfrom hto]
      have h2 : findTx (applyCompleted db tx.id fromId toId tx.amountCents) tid =
          some { tx with status := .COMPLETED } := by
        conv_lhs => rw [hid]
        exact applyCompleted_findTx db tid fromId toId tx.amountCents tx htx
      exact confirmTransfer_fst_nonpending env _ tid u _ h2 (by simp)
    | failed =>
      rw [handleMoovWebhook_failed_eq db mid tx hfind]
      have h2 : findTx (setTxStatus db tx.id .FAILED) tid =
          some { tx with status := .FAILED } := by
        rw [hid, findTx_setTxStatus, htx]
        simp [hid]
      exact confirmTransfer_fst_nonpending env _ tid u _ h2 (by simp)
  · intro ev ev2
    cases ev with
    | completed =>
      rw [handleMoovWebhook_completed_eq db mid fromId toId tx hfind hfrom hto]
      refine handleMoovWebhook_noop _ mid ?_ ev2
      rw [hid]
      exact corrMatch_none_after_set db (fun t => t.moovTransferId) mid tid .COMPLETED
        (by decide) huniq
    | failed =>
      rw [handleMoovWebhook_failed_eq db mid tx hfind]
      refine handleMoovWebhook_noop _ mid ?_ ev2
      rw [hid]
      exact corrMatch_none_after_set db (fun t => t.moovTransferId) mid tid .FAILED
        (by decide) huniq
  · intro ev
    by_cases hs : env.stripeStatus = "succeeded"
    · rw [hsconf, if_pos hs]
      exact handleStripeWebhook_noop _ pid
        (corrMatch_none_after_set db (fun t => t.stripePaymentIntentId) pid sid .COMPLETED
          (by decide) hsuniq) ev
    · rw [hsconf, if_neg hs]
      exact handleStripeWebhook_noop _ pid
        (corrMatch_none_after_set db (fun t => t.stripePaymentIntentId) pid sid .FAILED
          (by decide) hsuniq) ev
  · intro ev u
    cases ev with
    | payment_intent_succeeded =>
      rw [handleStripeWebhook_succeeded_eq db pid sfromId stoId stx hsfind hsfrom hsto]
      have h2 : findTx (applyCompleted db stx.id sfromId stoId stx.amountCents) sid =
          some { stx with status := .COMPLETED } := by
        conv_lhs => rw [hsid]
        exact applyCompleted_findTx db sid sfromId stoId stx.amountCents stx hstx
      exact confirmTransfer_fst_nonpending env _ sid u _ h2 (by simp)
    | payment_intent_payment_failed =>
      rw [handleStripeWebhook_failed_eq db pid stx hsfind]
      have h2 : findTx (setTxStatus db stx.id .FAILED) sid =
          some { stx with status := .FAILED } := by
        rw [hsid, findTx_setTxStatus, hstx]
        simp [hsid]
      exact confirmTransfer_fst_nonpending env _ sid u _ h2 (by simp)
  · intro ev ev2
    cases ev with
    | payment_intent_succeeded =>
      rw [handleStripeWebhook_succeeded_eq db pid sfromId stoId stx hsfind hsfrom hsto]
      refine handleStripeWebhook_noop _ pid ?_ ev2
      rw [hsid]
      exact corrMatch_none_after_set db (fun t => t.stripePaymentIntentId) pid sid
        .COMPLETED (by decide) hsuniq
    | payment_intent_payment_failed =>
      rw [handleStripeWebhook_failed_eq db pid stx hsfind]
      refine handleStripeWebhook_noop _ pid ?_ ev2
      rw [hsid]
      exact corrMatch_none_after_set db (fun t => t.stripePaymentIntentId) pid sid
        .FAILED (by decide) hsuniq

/-- C3 witness: in the two-transfer store, confirm-then-webhook,
webhook-then-confirm and webhook-then-webhook all leave the second
operation a no-op, for both the Moov and the Stripe transaction. -/
theorem C3_confirm_webhook_once_witness :
    (∀ ev, handleMoovWebhook (confirmTransfer ⟨"pending", "succeeded"⟩ wDB8 "tx5" "u1").1
        "mv5" ev = (confirmTransfer ⟨"pending", "succeeded"⟩ wDB8 "tx5" "u1").1) ∧
    (∀ ev u, (confirmTransfer ⟨"pending", "succeeded"⟩ (handleMoovWebhook wDB8 "mv5" ev)
        "tx5" u).1 = handleMoovWebhook wDB8 "mv5" ev) ∧
    (∀ ev ev2, handleMoovWebhook (handleMoovWebhook wDB8 "mv5" ev) "mv5" ev2 =
      handleMoovWebhook wDB8 "mv5" ev) ∧
    (∀ ev, handleStripeWebhook (confirmTransfer ⟨"pending", "succeeded"⟩ wDB8 "tx8" "u1").1
        "pi8" ev = (confirmTransfer ⟨"pending", "succeeded"⟩ wDB8 "tx8" "u1").1) ∧
    (∀ ev u, (confirmTransfer ⟨"pending", "succeeded"⟩ (handleStripeWebhook wDB8 "pi8" ev)
        "tx8" u).1 = handleStripeWebhook wDB8 "pi8" ev) ∧
    (∀ ev ev2, handleStripeWebhook (handleStripeWebhook wDB8 "pi8" ev) "pi8" ev2 =
      handleStripeWebhook wDB8 "pi8" ev) :=
  C3_confirm_webhook_once ⟨"pending", "succeeded"⟩ wDB8 "tx5" "tx8" "u1" "mv5" "pi8"
    "acctA" "acctB" "acctA" "acctB" wTxMoovPend wTxStrPend (by decide) rfl rfl rfl rfl rfl
    (by decide) (by decide) (by decide) (by decide) rfl rfl rfl rfl rfl rfl (by decide)
    (by decide) (by decide)

end Smbanx
